import Mathlib

/-
Verification of the map-symbol-icon-generator repository.

The development shallowly embeds the two source files with algorithmic
content:
  * src/p5-sketch/generator.ts (src/unnamed/part_001): the category
    registry, the drawer dispatch table, the single-flight generator
    initialization, the randomized symbol transform, the stroke helper
    and the per-icon canvas creation;
  * src/main.ts: the form-submit validation/clamping, the UI busy state,
    the slugify/padStart naming helpers and the batch generation loop
    with cooperative cancellation.

Randomness is embedded by passing each sampled value as an explicit
parameter constrained by the range the source samples it from.  Raster
pixel contents, data-URL encoding and the DOM are abstracted away; the
structures below keep exactly the observable data the claims speak
about (names, sizes, dispatch targets, state flags, emitted transform
operations).
-/

namespace MapSymbolGen

/-! Registry (generator.ts).  Only the ten uncommented categories exist in
the source; the remaining seven appear only commented out. -/

structure SymbolCategory where
  id : Nat
  key : String
  label : String
deriving DecidableEq, Inhabited

def SYMBOL_CATEGORIES : List SymbolCategory := [
  ⟨0, "city-hall", "市役所/役所"⟩,
  ⟨1, "police-box", "交番"⟩,
  ⟨2, "high-school", "高等学校"⟩,
  ⟨3, "post-office", "郵便局"⟩,
  ⟨4, "hospital", "病院"⟩,
  ⟨5, "shrine", "神社"⟩,
  ⟨6, "temple", "寺院"⟩,
  ⟨7, "museum", "博物館"⟩,
  ⟨8, "factory", "工場"⟩,
  ⟨9, "castle-ruins", "城跡"⟩]

/-- One constructor per drawing routine defined in generator.ts (the seven
routines after the "未実装" marker draw nothing but are still registered). -/
inductive SymbolDrawer where
  | drawCityHall
  | drawPoliceBox
  | drawHighSchool
  | drawPostOffice
  | drawHospital
  | drawShrine
  | drawTemple
  | drawMuseum
  | drawFactory
  | drawCastleRuins
  | drawHotSpring
  | drawFishingPort
  | drawOrchard
  | drawBroadleafForest
  | drawConiferousForest
  | drawLibrary
  | drawWindmill
deriving DecidableEq, Inhabited

/-- The DRAWERS_BY_KEY record object, as an association list. -/
def DRAWERS_BY_KEY : List (String × SymbolDrawer) := [
  ("city-hall", SymbolDrawer.drawCityHall),
  ("police-box", SymbolDrawer.drawPoliceBox),
  ("high-school", SymbolDrawer.drawHighSchool),
  ("post-office", SymbolDrawer.drawPostOffice),
  ("hospital", SymbolDrawer.drawHospital),
  ("shrine", SymbolDrawer.drawShrine),
  ("temple", SymbolDrawer.drawTemple),
  ("museum", SymbolDrawer.drawMuseum),
  ("factory", SymbolDrawer.drawFactory),
  ("castle-ruins", SymbolDrawer.drawCastleRuins),
  ("hot-spring", SymbolDrawer.drawHotSpring),
  ("fishing-port", SymbolDrawer.drawFishingPort),
  ("orchard", SymbolDrawer.drawOrchard),
  ("broadleaf-forest", SymbolDrawer.drawBroadleafForest),
  ("coniferous-forest", SymbolDrawer.drawConiferousForest),
  ("library", SymbolDrawer.drawLibrary),
  ("windmill", SymbolDrawer.drawWindmill)]

/-- DRAWERS is built by mapping each registry key through DRAWERS_BY_KEY
(the source throws on a missing key; mapM reflects that the construction
only succeeds when every key resolves). -/
def DRAWERS : List SymbolDrawer :=
  (SYMBOL_CATEGORIES.mapM (fun c => DRAWERS_BY_KEY.lookup c.key)).getD []

def DEFAULT_CANVAS_SIZE : ℚ := 28

/-- Observable result of one createIconForCategory call: the square canvas
side actually allocated and the drawer dispatched to.  Pixel contents and
the PNG data URL are abstracted. -/
structure Icon where
  canvasSize : ℤ
  drawer : SymbolDrawer
deriving DecidableEq

/-- The single throw site "Unknown category: ..." in createIconForCategory. -/
inductive IconError where
  | unknownCategory
deriving DecidableEq

/-- createIconForCategory (generator.ts).  The category id is a JS number,
embedded as a rational so that non-integer ids are representable; the
Number.isInteger test becomes a denominator test.  canvasSize mirrors
Math.max(8, Math.floor(size)).  No upper bound is applied to size here. -/
def createIconForCategory (categoryId : ℚ) (size : ℚ) : Except IconError Icon :=
  if categoryId.den ≠ 1 ∨ categoryId < 0 ∨ ((SYMBOL_CATEGORIES.length : ℚ) ≤ categoryId) then
    Except.error IconError.unknownCategory
  else
    Except.ok ⟨max 8 ⌊size⌋, DRAWERS.getD categoryId.num.toNat SymbolDrawer.drawCityHall⟩

/-- generateIcon, the IconGenerator interface method: delegates to
createIconForCategory with a default size of 28. -/
def generateIcon (categoryId : ℚ) (size : ℚ := DEFAULT_CANVAS_SIZE) : Except IconError Icon :=
  createIconForCategory categoryId size

/-! Single-flight memoized generator initialization (generator.ts,
getIconGenerator / generatorPromise).  A promise is identified by the
number it was allocated with; creations counts createGenerator calls. -/

structure GeneratorState where
  generatorPromise : Option Nat
  nextPromiseId : Nat
  creations : Nat
deriving DecidableEq

/-- getIconGenerator: returns the cached promise if present, otherwise
creates it (one createGenerator invocation) and caches it. -/
def getIconGenerator (s : GeneratorState) : Nat × GeneratorState :=
  match s.generatorPromise with
  | some pid => (pid, s)
  | none => (s.nextPromiseId, ⟨some s.nextPromiseId, s.nextPromiseId + 1, s.creations + 1⟩)

/-! The stroke helper and the drawers' stroke-weight requests
(generator.ts lines 120-124, 148-156). -/

/-- The stroke helper: Math.max(1, (size * factor) / currentScale).  The
source reads the module-level currentScale; here it is the explicit last
argument. -/
def stroke (size : ℚ) (factor : ℚ) (currentScale : ℚ) : ℚ :=
  max 1 (size * factor / currentScale)

/-- The two strokeWeight arguments drawCityHall passes: size * r1 with r1
sampled from [0.05, 0.08] and size * r2 with r2 sampled from [0.04, 0.06].
Neither goes through the stroke helper in the source. -/
def drawCityHallStrokeWeights (size r1 r2 : ℚ) : List ℚ :=
  [size * r1, size * r2]

/-! The randomized transform envelope (generator.ts, applySymbolTransform).
The emitted graphics-context operations are recorded as a list. -/

inductive GOp where
  | push
  | translate (x y : ℚ)
  | rotateDeg (deg : ℚ)
  | scaleBy (s : ℚ)
  | drawCall
  | pop
deriving DecidableEq

structure TransformRun where
  ops : List GOp
  scaleDuringDraw : ℚ
  scaleAfter : ℚ
  threw : Bool
deriving DecidableEq

/-- applySymbolTransform: push; translate to (size/2, size/2); rotate by
p.radians of a degree sample from [-20, 20] (the op records the degree
argument passed to p.radians); scale by a sample from [0.5, 1] which is
also stored into the shared currentScale slot; translate by a jitter of
size * random(-0.05, 0.05) per axis; invoke draw; and in a finally block
pop the context and reset currentScale to 1 — also when draw throws
(drawThrows records a propagating exception). -/
def applySymbolTransform (size rotDeg scaleS dx dy : ℚ) (drawThrows : Bool) : TransformRun :=
  { ops := [GOp.push, GOp.translate (size / 2) (size / 2), GOp.rotateDeg rotDeg,
            GOp.scaleBy scaleS, GOp.translate (size * dx) (size * dy), GOp.drawCall, GOp.pop],
    scaleDuringDraw := scaleS,
    scaleAfter := 1,
    threw := drawThrows }

/-! main.ts: constants, naming helpers, submit validation, UI state and the
batch generation loop. -/

def MAX_PER_CATEGORY : ℤ := 6000
def MIN_PIXEL_SIZE : ℤ := 8
def MAX_PIXEL_SIZE : ℤ := 512

/-- JS String.prototype.padStart with a single pad character. -/
def padStart (s : String) (targetLength : Nat) (padChar : Char) : String :=
  String.mk (List.replicate (targetLength - s.length) padChar) ++ s

/-- ASCII approximation of the regex \w character class. -/
def isWordChar (ch : Char) : Bool :=
  ch.isAlpha || ch.isDigit || ch = '_'

/-- ASCII approximation of the regex \s character class. -/
def isSpaceChar (ch : Char) : Bool :=
  ch = ' ' || ch = '\t' || ch = '\n' || ch = '\r'

/-- String.prototype.trim (ASCII whitespace). -/
def trimSpaces (l : List Char) : List Char :=
  ((l.dropWhile isSpaceChar).reverse.dropWhile isSpaceChar).reverse

/-- replace(/\s+/g, '-'): every maximal whitespace run becomes one '-'.
The Boolean argument tracks whether the previous character was whitespace. -/
def collapseSpaceRuns : Bool → List Char → List Char
  | _, [] => []
  | prevSpace, ch :: rest =>
    if isSpaceChar ch then
      if prevSpace then collapseSpaceRuns true rest
      else '-' :: collapseSpaceRuns true rest
    else ch :: collapseSpaceRuns false rest

/-- slugify (main.ts): NFKD normalize (identity on the ASCII registry keys,
so omitted), strip characters outside \w, \s and '-', trim, replace
whitespace runs with '-', lowercase. -/
def slugify (value : String) : String :=
  let kept := value.data.filter (fun ch => isWordChar ch || isSpaceChar ch || ch = '-')
  String.mk ((collapseSpaceRuns false (trimSpaces kept)).map Char.toLower)

/-- Folder name for the category at 0-based position index of the filtered
selection: String(index + 1).padStart(2, '0') + '_' + slugify(key). -/
def folderNameAt (index : Nat) (key : String) : String :=
  padStart (toString (index + 1)) 2 '0' ++ "_" ++ slugify key

/-- File name for the icon at 0-based position iconIndex inside a folder:
String(iconIndex + 1).padStart(4, '0') + '.png'. -/
def fileNameAt (iconIndex : Nat) : String :=
  padStart (toString (iconIndex + 1)) 4 '0' ++ ".png"

/-- Outcome of the synchronous validation part of the form submit handler.
Each rejected constructor corresponds to one appendProgress error message
and an early return before any archive or run state is touched; started
carries the clamped effective parameters and the filtered category list
(reaching it is where the source creates the JSZip and sets isGenerating). -/
inductive SubmitOutcome where
  | rejectedCount
  | rejectedPixel
  | rejectedNoCategory
  | started (perCategory : ℤ) (pixelSize : ℤ) (active : List SymbolCategory)
deriving DecidableEq

/-- True exactly on the started outcome. -/
def isStarted : SubmitOutcome → Bool
  | SubmitOutcome.started _ _ _ => true
  | _ => false

/-- The submit handler's validation and clamping (main.ts lines 190-221).
parsedCount / parsedPixel are the Number.parseInt results, none meaning
NaN.  selected models the selectedCategories set as a list of ids. -/
def handleSubmit (parsedCount : Option ℤ) (parsedPixel : Option ℤ)
    (selected : List Nat) : SubmitOutcome :=
  match parsedCount with
  | none => SubmitOutcome.rejectedCount
  | some c =>
    if c ≤ 0 then SubmitOutcome.rejectedCount
    else
      let perCategory := min MAX_PER_CATEGORY (max 1 c)
      match parsedPixel with
      | none => SubmitOutcome.rejectedPixel
      | some px =>
        if px < MIN_PIXEL_SIZE then SubmitOutcome.rejectedPixel
        else
          let pixelSize := min MAX_PIXEL_SIZE (max MIN_PIXEL_SIZE px)
          if selected = [] then SubmitOutcome.rejectedNoCategory
          else
            SubmitOutcome.started perCategory pixelSize
              (SYMBOL_CATEGORIES.filter (fun cat => selected.contains cat.id))

/-- The submit event including the isGenerating flag: the handler never
reads the flag; it only sets it true when a run starts. -/
structure SubmitResult where
  outcome : SubmitOutcome
  isGeneratingAfter : Bool
deriving DecidableEq

def submitEvent (isGeneratingBefore : Bool) (parsedCount parsedPixel : Option ℤ)
    (selected : List Nat) : SubmitResult :=
  match handleSubmit parsedCount parsedPixel selected with
  | SubmitOutcome.started per ps active => ⟨SubmitOutcome.started per ps active, true⟩
  | o => ⟨o, isGeneratingBefore⟩

/-- updateUiState (main.ts lines 55-66): which controls are disabled as a
function of isGenerating and initialized. -/
structure UiState where
  generateDisabled : Bool
  cancelDisabled : Bool
  countDisabled : Bool
  pixelDisabled : Bool
  refreshDisabled : Bool
  checkboxesDisabled : Bool
deriving DecidableEq

def updateUiState (isGenerating initialized : Bool) : UiState :=
  { generateDisabled := isGenerating,
    cancelDisabled := !isGenerating,
    countDisabled := isGenerating,
    pixelDisabled := isGenerating,
    refreshDisabled := isGenerating || !initialized,
    checkboxesDisabled := isGenerating }

/-! The batch generation loop (main.ts lines 219-278).  The cancellation
flag is set by an external click and is only ever cleared by the finally
block, so during one run it is a monotone function of progress; it is
embedded as cancel : Nat → Bool, read at the number of icons generated so
far (checks between two consecutive generations are separated by no await
and therefore read the same value). -/

/-- Which terminal appendProgress message the run reports: the distinct
cancelled message, the completed message after the download, or the
catch-block error message. -/
inductive Terminal where
  | cancelled
  | completed
  | errored
deriving DecidableEq

structure Folder where
  name : String
  files : List String
deriving DecidableEq

structure RunResult where
  folders : List Folder
  terminal : Terminal
  downloaded : Bool
  isGenerating : Bool
  cancelRequested : Bool
  totalGenerated : Nat
deriving DecidableEq

/-- The inner per-icon loop: remaining iterations, current iconIndex and
the running total of icons generated; checks the flag at the head of every
iteration. -/
def innerFiles (cancel : Nat → Bool) : Nat → Nat → Nat → List String × Nat
  | 0, _, total => ([], total)
  | remaining + 1, iconIndex, total =>
    if cancel total then ([], total)
    else
      let rest := innerFiles cancel remaining (iconIndex + 1) (total + 1)
      (fileNameAt iconIndex :: rest.1, rest.2)

/-- The outer per-category loop: checks the flag at its head, creates the
category folder, runs the inner loop, continues with the next category. -/
def outerLoop (cancel : Nat → Bool) (per : Nat) :
    List SymbolCategory → Nat → Nat → List Folder × Nat
  | [], _, total => ([], total)
  | c :: cs, index, total =>
    if cancel total then ([], total)
    else
      let inner := innerFiles cancel per 0 total
      let rest := outerLoop cancel per cs (index + 1) inner.2
      (⟨folderNameAt index c.key, inner.1⟩ :: rest.1, rest.2)

/-- The whole run: the nested loops, then the post-loop cancelRequested
check choosing between the cancelled return (no archive finalization, no
download) and the completed path (zip.generateAsync + saveAs), and the
finally block clearing isGenerating and cancelRequested. -/
def runGenerate (cats : List SymbolCategory) (per : Nat) (cancel : Nat → Bool) : RunResult :=
  let result := outerLoop cancel per cats 0 0
  if cancel result.2 then
    { folders := result.1, terminal := Terminal.cancelled, downloaded := false,
      isGenerating := false, cancelRequested := false, totalGenerated := result.2 }
  else
    { folders := result.1, terminal := Terminal.completed, downloaded := true,
      isGenerating := false, cancelRequested := false, totalGenerated := result.2 }

/-! Claim theorems. -/

/-- Claim C1, counterexample: the claim asserts a requested count of 0 is
clamped to an effective count of 1 and a requested size of 4 is clamped to
8; in the source both are rejected by the validation guards before any
clamping, so no run with those effective parameters starts. -/
theorem clampLaw_counterexample :
    handleSubmit (some 0) (some 64) [0] = SubmitOutcome.rejectedCount ∧
    handleSubmit (some 100) (some 4) [0] = SubmitOutcome.rejectedPixel ∧
    handleSubmit (some 0) (some 64) [0] ≠
      SubmitOutcome.started 1 64 (SYMBOL_CATEGORIES.filter (fun cat => List.contains [0] cat.id)) ∧
    handleSubmit (some 100) (some 4) [0] ≠
      SubmitOutcome.started 100 8 (SYMBOL_CATEGORIES.filter (fun cat => List.contains [0] cat.id)) := by
  refine ⟨rfl, rfl, ?_, ?_⟩ <;> decide

/-- Claim C1 as amended: values above the maxima are clamped down (count
10000 becomes 6000, size 9999 becomes 512), but a non-positive count or a
size below 8 is rejected with a message instead of being clamped up; for
accepted submissions the effective parameters are min(6000, count) and
min(512, size). -/
theorem clampLaw_amended (c px : ℤ) (sel : List Nat)
    (hc : 0 < c) (hp : 8 ≤ px) (hsel : sel ≠ []) :
    handleSubmit (some c) (some px) sel =
      SubmitOutcome.started (min 6000 c) (min 512 px)
        (SYMBOL_CATEGORIES.filter (fun cat => sel.contains cat.id)) ∧
    handleSubmit (some 0) (some px) sel = SubmitOutcome.rejectedCount ∧
    handleSubmit (some c) (some 4) sel = SubmitOutcome.rejectedPixel := by
  refine ⟨?_, ?_, ?_⟩
  · simp only [handleSubmit, MAX_PER_CATEGORY, MIN_PIXEL_SIZE, MAX_PIXEL_SIZE]
    rw [if_neg (by omega), if_neg (by omega), if_neg hsel,
      max_eq_right (by omega : (1 : ℤ) ≤ c), max_eq_right (by omega : (8 : ℤ) ≤ px)]
  · simp [handleSubmit]
  · simp only [handleSubmit, MIN_PIXEL_SIZE]
    rw [if_neg (by omega), if_pos (by omega)]

/-- Witness for the amended C1 at the claim's own numbers: count 10000 is
clamped to 6000 and size 9999 to 512, while count 0 and size 4 are
rejected. -/
theorem clampLaw_amended_witness :
    handleSubmit (some 10000) (some 9999) [0] =
      SubmitOutcome.started 6000 512
        (SYMBOL_CATEGORIES.filter (fun cat => List.contains [0] cat.id)) ∧
    handleSubmit (some 0) (some 9999) [0] = SubmitOutcome.rejectedCount ∧
    handleSubmit (some 10000) (some 4) [0] = SubmitOutcome.rejectedPixel := by
  have h := clampLaw_amended 10000 9999 [0] (by decide) (by decide) (by decide)
  simpa using h

/-- Claim C6: a submission with a non-numeric (NaN) or non-positive count,
a non-numeric or non-positive size, or an empty category selection is
rejected with the corresponding reported message, and no run starts (the
started outcome, where the source allocates the archive and sets
isGenerating, is never produced on these paths). -/
theorem inputRejection :
    (∀ pp sel, handleSubmit none pp sel = SubmitOutcome.rejectedCount ∧
      isStarted (handleSubmit none pp sel) = false) ∧
    (∀ (c : ℤ) pp sel, c ≤ 0 → handleSubmit (some c) pp sel = SubmitOutcome.rejectedCount ∧
      isStarted (handleSubmit (some c) pp sel) = false) ∧
    (∀ (c : ℤ) sel, 0 < c → handleSubmit (some c) none sel = SubmitOutcome.rejectedPixel ∧
      isStarted (handleSubmit (some c) none sel) = false) ∧
    (∀ (c px : ℤ) sel, 0 < c → px ≤ 0 →
      handleSubmit (some c) (some px) sel = SubmitOutcome.rejectedPixel ∧
      isStarted (handleSubmit (some c) (some px) sel) = false) ∧
    (∀ (c px : ℤ), 0 < c → 8 ≤ px →
      handleSubmit (some c) (some px) [] = SubmitOutcome.rejectedNoCategory ∧
      isStarted (handleSubmit (some c) (some px) []) = false) := by
  refine ⟨fun pp sel => ⟨rfl, rfl⟩, ?_, ?_, ?_, ?_⟩
  · intro c pp sel hc
    simp only [handleSubmit]
    rw [if_pos hc]
    exact ⟨rfl, rfl⟩
  · intro c sel hc
    simp only [handleSubmit]
    rw [if_neg (by omega)]
    exact ⟨rfl, rfl⟩
  · intro c px sel hc hpx
    simp only [handleSubmit, MIN_PIXEL_SIZE]
    rw [if_neg (by omega), if_pos (by omega)]
    exact ⟨rfl, rfl⟩
  · intro c px hc hpx
    simp only [handleSubmit, MIN_PIXEL_SIZE, MAX_PIXEL_SIZE, MAX_PER_CATEGORY]
    rw [if_neg (by omega), if_neg (by omega)]
    exact ⟨by simp, by simp [isStarted]⟩

/-- Witness for C6: each rejection branch at a concrete input. -/
theorem inputRejection_witness :
    (handleSubmit none (some 64) [0] = SubmitOutcome.rejectedCount ∧
      isStarted (handleSubmit none (some 64) [0]) = false) ∧
    (handleSubmit (some 0) (some 64) [0] = SubmitOutcome.rejectedCount ∧
      isStarted (handleSubmit (some 0) (some 64) [0]) = false) ∧
    (handleSubmit (some 5) none [0] = SubmitOutcome.rejectedPixel ∧
      isStarted (handleSubmit (some 5) none [0]) = false) ∧
    (handleSubmit (some 5) (some (-3)) [0] = SubmitOutcome.rejectedPixel ∧
      isStarted (handleSubmit (some 5) (some (-3)) [0]) = false) ∧
    (handleSubmit (some 5) (some 64) [] = SubmitOutcome.rejectedNoCategory ∧
      isStarted (handleSubmit (some 5) (some 64) []) = false) := by
  have h := inputRejection
  exact ⟨h.1 (some 64) [0], h.2.1 0 (some 64) [0] (by decide),
    h.2.2.1 5 [0] (by decide), h.2.2.2.1 5 (-3) [0] (by decide) (by decide),
    h.2.2.2.2 5 64 (by decide) (by decide)⟩

/-- Claim C4, counterexample: the submit handler has no busy branch — a
submit event dispatched while isGenerating is true is not rejected with a
busy report; with valid inputs it starts a new run. -/
theorem busyRejection_counterexample :
    (submitEvent true (some 10) (some 64) [0]).outcome =
      SubmitOutcome.started 10 64
        (SYMBOL_CATEGORIES.filter (fun cat => List.contains [0] cat.id)) ∧
    isStarted (submitEvent true (some 10) (some 64) [0]).outcome = true := by
  exact ⟨by decide, by decide⟩

/-- Claim C4 as amended: the handler itself contains no busy check (its
outcome is the same whether or not a run is in progress); busy protection
lives in the UI layer instead — while isGenerating, updateUiState disables
the generate button, both numeric inputs, the refresh button and every
category checkbox, leaving only the cancel button enabled, so no new
request can be submitted through the UI while a run is in progress. -/
theorem busyRejection_amended :
    ∀ (init : Bool) (pc pp : Option ℤ) (sel : List Nat),
      (updateUiState true init).generateDisabled = true ∧
      (updateUiState true init).countDisabled = true ∧
      (updateUiState true init).pixelDisabled = true ∧
      (updateUiState true init).refreshDisabled = true ∧
      (updateUiState true init).checkboxesDisabled = true ∧
      (updateUiState true init).cancelDisabled = false ∧
      (submitEvent true pc pp sel).outcome = (submitEvent false pc pp sel).outcome := by
  intro init pc pp sel
  refine ⟨rfl, rfl, rfl, rfl, rfl, rfl, ?_⟩
  cases h : handleSubmit pc pp sel <;> simp [submitEvent, h]

/-- Claim C3, counterexample: drawCityHall passes size * factor directly
to strokeWeight without the compensating stroke helper, so for size 28,
factor 0.05 (inside its sampled range [0.05, 0.08]) and sampled scale 0.5
the weight the drawer requests is 1.4, not the claimed
max(1, size * factor / scale) = 2.8. -/
theorem strokeCompensation_counterexample :
    drawCityHallStrokeWeights 28 (1/20) (1/20) = [7/5, 7/5] ∧
    stroke 28 (1/20) (1/2) = 14/5 ∧
    (7/5 : ℚ) ≠ 14/5 := by
  refine ⟨?_, ?_, by norm_num⟩
  · rw [drawCityHallStrokeWeights]
    norm_num
  · rw [stroke, show (28 : ℚ) * (1/20) / (1/2) = 14/5 by norm_num,
      max_eq_right (by norm_num : (1 : ℚ) ≤ 14/5)]

/-- Claim C3 as amended: the stroke helper itself obeys the law — for any
scale in [0.5, 1] it computes max(1, size * factor / scale), which is
always at least 1, and whenever size * factor is at least 1 the rendered
thickness (sampled scale times effective stroke) equals size * factor and
is therefore invariant under the sampled scale; the drawers, however, pass
size * factor to strokeWeight uncompensated (shown for drawCityHall). -/
theorem strokeCompensation_amended (size factor s r1 r2 : ℚ)
    (hs0 : 1/2 ≤ s) (hs1 : s ≤ 1) (hbig : 1 ≤ size * factor) :
    stroke size factor s = max 1 (size * factor / s) ∧
    1 ≤ stroke size factor s ∧
    s * stroke size factor s = size * factor ∧
    drawCityHallStrokeWeights size r1 r2 = [size * r1, size * r2] := by
  have hspos : 0 < s := by linarith
  have hone : 1 ≤ size * factor / s := by
    rw [le_div_iff₀ hspos]
    linarith
  refine ⟨rfl, le_max_left 1 _, ?_, rfl⟩
  rw [stroke, max_eq_right hone, mul_div_cancel₀ _ (ne_of_gt hspos)]

/-- Witness for the amended C3 at size 28, factor 0.06, scale 0.5 and both
drawCityHall samples at 0.05. -/
theorem strokeCompensation_amended_witness :
    stroke 28 (3/50) (1/2) = max 1 (28 * (3/50) / (1/2)) ∧
    1 ≤ stroke 28 (3/50) (1/2) ∧
    (1/2 : ℚ) * stroke 28 (3/50) (1/2) = 28 * (3/50) ∧
    drawCityHallStrokeWeights 28 (1/20) (1/20) = [28 * (1/20), 28 * (1/20)] := by
  exact strokeCompensation_amended 28 (3/50) (1/2) (1/20) (1/20)
    (by norm_num) (by norm_num) (by norm_num)

/-- Claim C5: applySymbolTransform centers the frame at (size/2, size/2),
applies the sampled rotation, then the sampled scale, then the sampled
center offset, in that order, before the drawer runs; the sampled scale is
stored in the shared slot for the duration of the draw; the per-axis
offset is bounded by 5 percent of size; and on every exit path, whether or
not the drawer throws, the context is popped and the shared scale slot is
reset to 1. -/
theorem transformEnvelope (size rot s dx dy : ℚ) (drawThrows : Bool)
    (_hr1 : -20 ≤ rot) (_hr2 : rot ≤ 20) (_hs1 : 1/2 ≤ s) (_hs2 : s ≤ 1)
    (hdx : |dx| ≤ 1/20) (hdy : |dy| ≤ 1/20) (hsize : 0 ≤ size) :
    (applySymbolTransform size rot s dx dy drawThrows).ops =
      [GOp.push, GOp.translate (size/2) (size/2), GOp.rotateDeg rot, GOp.scaleBy s,
       GOp.translate (size * dx) (size * dy), GOp.drawCall, GOp.pop] ∧
    (applySymbolTransform size rot s dx dy drawThrows).scaleDuringDraw = s ∧
    (applySymbolTransform size rot s dx dy drawThrows).scaleAfter = 1 ∧
    (applySymbolTransform size rot s dx dy drawThrows).ops.getLast? = some GOp.pop ∧
    |size * dx| ≤ size * (1/20) ∧ |size * dy| ≤ size * (1/20) := by
  refine ⟨rfl, rfl, rfl, rfl, ?_, ?_⟩
  · rw [abs_mul, abs_of_nonneg hsize]
    exact mul_le_mul_of_nonneg_left hdx hsize
  · rw [abs_mul, abs_of_nonneg hsize]
    exact mul_le_mul_of_nonneg_left hdy hsize

/-- Witness for C5 at size 28 with rotation 10 degrees, scale 3/4, offsets
1/20 and -1/100, and a throwing drawer. -/
theorem transformEnvelope_witness :
    (applySymbolTransform 28 10 (3/4) (1/20) (-1/100) true).ops =
      [GOp.push, GOp.translate (28/2) (28/2), GOp.rotateDeg 10, GOp.scaleBy (3/4),
       GOp.translate (28 * (1/20)) (28 * (-1/100)), GOp.drawCall, GOp.pop] ∧
    (applySymbolTransform 28 10 (3/4) (1/20) (-1/100) true).scaleDuringDraw = 3/4 ∧
    (applySymbolTransform 28 10 (3/4) (1/20) (-1/100) true).scaleAfter = 1 ∧
    (applySymbolTransform 28 10 (3/4) (1/20) (-1/100) true).ops.getLast? = some GOp.pop ∧
    |(28 : ℚ) * (1/20)| ≤ 28 * (1/20) ∧ |(28 : ℚ) * (-1/100)| ≤ 28 * (1/20) := by
  exact transformEnvelope 28 10 (3/4) (1/20) (-1/100) true (by norm_num) (by norm_num)
    (by norm_num) (by norm_num)
    (by rw [abs_of_nonneg (by norm_num : (0:ℚ) ≤ 1/20)])
    (by rw [abs_of_nonpos (by norm_num : (-1/100 : ℚ) ≤ 0)]; norm_num) (by norm_num)

/-- Helper: on a valid integer category id the guard passes and the call
returns the icon with canvas side max(8, floor(size)) and the drawer at
that index of DRAWERS. -/
theorem createIcon_ok (n : Nat) (s : ℚ) (h : n < SYMBOL_CATEGORIES.length) :
    createIconForCategory (n : ℚ) s =
      Except.ok ⟨max 8 ⌊s⌋, DRAWERS.getD n SymbolDrawer.drawCityHall⟩ := by
  rw [createIconForCategory, if_neg]
  · norm_num
  · push_neg
    refine ⟨by simp, by positivity, ?_⟩
    exact_mod_cast h

/-- Claim C7: every non-integer id and every integer id outside
[0, registrySize) makes createIconForCategory fail with the unknown
category error rather than return an icon, and every integer id inside the
range dispatches to that category's drawer — the DRAWERS entry at the id,
which is exactly what DRAWERS_BY_KEY associates to the category's key. -/
theorem invalidCategoryId :
    (∀ (q s : ℚ), (q.den ≠ 1 ∨ q < 0 ∨ ((SYMBOL_CATEGORIES.length : ℚ) ≤ q)) →
      createIconForCategory q s = Except.error IconError.unknownCategory) ∧
    (∀ (n : Nat) (s : ℚ), n < SYMBOL_CATEGORIES.length →
      createIconForCategory (n : ℚ) s =
        Except.ok ⟨max 8 ⌊s⌋, DRAWERS.getD n SymbolDrawer.drawCityHall⟩ ∧
      DRAWERS_BY_KEY.lookup ((SYMBOL_CATEGORIES.getD n default).key) =
        some (DRAWERS.getD n SymbolDrawer.drawCityHall)) := by
  constructor
  · intro q s hq
    rw [createIconForCategory, if_pos hq]
  · intro n s h
    refine ⟨createIcon_ok n s h, ?_⟩
    have h10 : n < 10 := by simpa [SYMBOL_CATEGORIES] using h
    interval_cases n <;> decide

/-- Witness for C7: the non-integer id 5/2 and the out-of-range id 12 fail;
the valid id 4 (hospital) succeeds and dispatches to drawHospital. -/
theorem invalidCategoryId_witness :
    createIconForCategory (5/2) 64 = Except.error IconError.unknownCategory ∧
    createIconForCategory 12 64 = Except.error IconError.unknownCategory ∧
    createIconForCategory ((4 : Nat) : ℚ) 64 =
      Except.ok ⟨64, SymbolDrawer.drawHospital⟩ ∧
    DRAWERS_BY_KEY.lookup ((SYMBOL_CATEGORIES.getD 4 default).key) =
      some SymbolDrawer.drawHospital := by
  have h := invalidCategoryId
  have h4 := h.2 4 64 (by decide)
  have hdraw : DRAWERS.getD 4 SymbolDrawer.drawCityHall = SymbolDrawer.drawHospital := by decide
  have hfloor : (⌊(64 : ℚ)⌋ : ℤ) = 64 := by norm_num
  refine ⟨?_, ?_, ?_, ?_⟩
  · refine h.1 (5/2) 64 (Or.inl ?_)
    norm_num [Rat.den_div_eq_of_coprime]
  · refine h.1 12 64 (Or.inr (Or.inr (by norm_num [SYMBOL_CATEGORIES])))
  · rw [h4.1, hfloor, hdraw]
    norm_num
  · rw [h4.2, hdraw]

/-- Claim C10: for a valid category id the canvas side is
max(8, floor(size)) — fractional sizes are floored, sizes below 8 raised
to 8 — and no upper clamp is applied at this layer, so a size whose floor
exceeds 512 yields a canvas larger than 512. -/
theorem generatorSizeNormalization (n : Nat) (size : ℚ)
    (h : n < SYMBOL_CATEGORIES.length) :
    createIconForCategory (n : ℚ) size =
      Except.ok ⟨max 8 ⌊size⌋, DRAWERS.getD n SymbolDrawer.drawCityHall⟩ ∧
    (512 < ⌊size⌋ → 512 < max 8 ⌊size⌋) ∧
    (⌊size⌋ < 8 → max 8 ⌊size⌋ = 8) := by
  refine ⟨createIcon_ok n size h, fun hbig => ?_, fun hsmall => ?_⟩
  · exact lt_max_of_lt_right hbig
  · exact max_eq_left (by omega)

/-- Witness for C10: a direct call with size 10000 on category 0 allocates
a 10000-pixel canvas, far beyond the form layer's 512 bound. -/
theorem generatorSizeNormalization_witness :
    createIconForCategory ((0 : Nat) : ℚ) 10000 =
      Except.ok ⟨10000, SymbolDrawer.drawCityHall⟩ ∧
    (512 : ℤ) < 10000 := by
  have h := generatorSizeNormalization 0 10000 (by decide)
  have hfloor : (⌊(10000 : ℚ)⌋ : ℤ) = 10000 := by norm_num
  have hmax : max (8 : ℤ) 10000 = 10000 := by decide
  have hdraw : DRAWERS.getD 0 SymbolDrawer.drawCityHall = SymbolDrawer.drawCityHall := by decide
  refine ⟨?_, by decide⟩
  rw [h.1, hfloor, hmax, hdraw]

/-- Claim C9: getIconGenerator is single-flight and memoized — starting
from a fresh module state, every later call (any number of repetitions)
returns the same promise as the first call, the state after one call is a
fixed point of further calls, and createGenerator has run exactly once. -/
theorem singleFlightGenerator (s : GeneratorState)
    (hfresh : s.generatorPromise = none) (n : Nat) :
    (getIconGenerator (Nat.iterate (fun st => (getIconGenerator st).2) n s)).1 =
      (getIconGenerator s).1 ∧
    Nat.iterate (fun st => (getIconGenerator st).2) (n + 1) s = (getIconGenerator s).2 ∧
    ((getIconGenerator s).2).creations = s.creations + 1 := by
  have stable : ∀ st : GeneratorState,
      getIconGenerator ((getIconGenerator st).2) = getIconGenerator st := by
    intro st
    cases hst : st.generatorPromise with
    | none => simp [getIconGenerator, hst]
    | some pid => simp [getIconGenerator, hst]
  have iter_eq : ∀ m : Nat,
      getIconGenerator (Nat.iterate (fun st => (getIconGenerator st).2) m s) =
        getIconGenerator s := by
    intro m
    induction m with
    | zero => rfl
    | succ m ih =>
      rw [Function.iterate_succ_apply']
      rw [stable, ih]
  refine ⟨by rw [iter_eq n], ?_, by simp [getIconGenerator, hfresh]⟩
  induction n with
  | zero => rfl
  | succ m ih =>
    rw [Function.iterate_succ_apply', ih]
    have := stable s
    calc (getIconGenerator ((getIconGenerator s).2)).2
        = (getIconGenerator s).2 := by rw [this]

/-- Witness for C9 from the module's initial state (no cached promise,
next id 0, no creations), iterated five times. -/
theorem singleFlightGenerator_witness :
    (getIconGenerator (Nat.iterate (fun st => (getIconGenerator st).2) 5
        (⟨none, 0, 0⟩ : GeneratorState))).1 =
      (getIconGenerator (⟨none, 0, 0⟩ : GeneratorState)).1 ∧
    Nat.iterate (fun st => (getIconGenerator st).2) 6 (⟨none, 0, 0⟩ : GeneratorState) =
      (getIconGenerator (⟨none, 0, 0⟩ : GeneratorState)).2 ∧
    ((getIconGenerator (⟨none, 0, 0⟩ : GeneratorState)).2).creations = 0 + 1 := by
  exact singleFlightGenerator ⟨none, 0, 0⟩ rfl 5

/-- Helper: since the inner loop checks the flag before every icon, once a
monotone cancellation signal is set by total k no icon beyond the k-th is
generated, and the loop either observed the flag or ran to exhaustion. -/
theorem innerFiles_cancel_bound (cancel : Nat → Bool) (k : Nat)
    (hmono : ∀ i j, i ≤ j → cancel i = true → cancel j = true)
    (hk : cancel k = true) :
    ∀ (remaining iconIndex total : Nat), total ≤ k →
      (innerFiles cancel remaining iconIndex total).2 ≤ k ∧
      (cancel (innerFiles cancel remaining iconIndex total).2 = true ∨
        (innerFiles cancel remaining iconIndex total).2 = total + remaining) := by
  intro remaining
  induction remaining with
  | zero =>
    intro iconIndex total htot
    exact ⟨htot, Or.inr rfl⟩
  | succ r ih =>
    intro iconIndex total htot
    by_cases hc : cancel total = true
    · have heq : (innerFiles cancel (r + 1) iconIndex total).2 = total := by
        simp [innerFiles, hc]
      rw [heq]
      exact ⟨htot, Or.inl hc⟩
    · have hlt : total < k := by
        rcases Nat.lt_or_ge total k with h | h
        · exact h
        · exact absurd (hmono k total h hk) hc
      have h2 := ih (iconIndex + 1) (total + 1) (by omega)
      have heq : (innerFiles cancel (r + 1) iconIndex total).2 =
          (innerFiles cancel r (iconIndex + 1) (total + 1)).2 := by
        simp [innerFiles, hc]
      rw [heq]
      refine ⟨h2.1, ?_⟩
      rcases h2.2 with h | h
      · exact Or.inl h
      · exact Or.inr (by omega)

/-- Helper: same bound lifted through the outer per-category loop. -/
theorem outerLoop_cancel_bound (cancel : Nat → Bool) (per : Nat) (k : Nat)
    (hmono : ∀ i j, i ≤ j → cancel i = true → cancel j = true)
    (hk : cancel k = true) :
    ∀ (cats : List SymbolCategory) (index total : Nat), total ≤ k →
      (outerLoop cancel per cats index total).2 ≤ k ∧
      (cancel (outerLoop cancel per cats index total).2 = true ∨
        (outerLoop cancel per cats index total).2 = total + cats.length * per) := by
  intro cats
  induction cats with
  | nil =>
    intro index total htot
    exact ⟨htot, Or.inr (by simp [outerLoop])⟩
  | cons c cs ih =>
    intro index total htot
    by_cases hc : cancel total = true
    · have heq : (outerLoop cancel per (c :: cs) index total).2 = total := by
        simp [outerLoop, hc]
      rw [heq]
      exact ⟨htot, Or.inl hc⟩
    · have heq : (outerLoop cancel per (c :: cs) index total).2 =
          (outerLoop cancel per cs (index + 1) (innerFiles cancel per 0 total).2).2 := by
        simp [outerLoop, hc]
      rw [heq]
      have hinner := innerFiles_cancel_bound cancel k hmono hk per 0 total htot
      have houter := ih (index + 1) (innerFiles cancel per 0 total).2 hinner.1
      refine ⟨houter.1, ?_⟩
      rcases houter.2 with h | h
      · exact Or.inl h
      · by_cases hcend : cancel (outerLoop cancel per cs (index + 1)
            (innerFiles cancel per 0 total).2).2 = true
        · exact Or.inl hcend
        · have hinner_not : cancel (innerFiles cancel per 0 total).2 ≠ true := by
            intro habs
            exact hcend (hmono _ _ (by omega) habs)
          rcases hinner.2 with hi | hi
          · exact absurd hi hinner_not
          · refine Or.inr ?_
            rw [h, hi, List.length_cons]
            ring

/-- Claim C2: with a monotone cancellation signal set after k icons, where
k is less than the run's natural total, the run reports the distinct
cancelled terminal message (not the error one), finalizes no archive and
triggers no download, generates at most k icons — strictly fewer than the
request, so the loops exited at a flag check without finishing the
remaining work — and the finally block returns the pipeline to its ready
state with isGenerating false and cancelRequested cleared. -/
theorem cancellationRun (cats : List SymbolCategory) (per : Nat) (cancel : Nat → Bool)
    (hmono : ∀ i j, i ≤ j → cancel i = true → cancel j = true)
    (k : Nat) (hk : cancel k = true) (hlt : k < cats.length * per) :
    (runGenerate cats per cancel).terminal = Terminal.cancelled ∧
    (runGenerate cats per cancel).terminal ≠ Terminal.errored ∧
    (runGenerate cats per cancel).downloaded = false ∧
    (runGenerate cats per cancel).isGenerating = false ∧
    (runGenerate cats per cancel).cancelRequested = false ∧
    (runGenerate cats per cancel).totalGenerated ≤ k ∧
    (runGenerate cats per cancel).totalGenerated < cats.length * per := by
  have h := outerLoop_cancel_bound cancel per k hmono hk cats 0 0 (Nat.zero_le k)
  have hflag : cancel (outerLoop cancel per cats 0 0).2 = true := by
    rcases h.2 with hc | he
    · exact hc
    · exfalso
      have h1 := h.1
      rw [he] at h1
      omega
  have hrun : runGenerate cats per cancel =
      { folders := (outerLoop cancel per cats 0 0).1, terminal := Terminal.cancelled,
        downloaded := false, isGenerating := false, cancelRequested := false,
        totalGenerated := (outerLoop cancel per cats 0 0).2 } := by
    simp [runGenerate, hflag]
  rw [hrun]
  exact ⟨rfl, fun habs => Terminal.noConfusion habs, rfl, rfl, rfl, h.1,
    lt_of_le_of_lt h.1 hlt⟩

/-- Witness for C2: two categories of three icons each, with the
cancellation click arriving once four icons exist; the run ends cancelled,
with no download and at most four of the six icons generated. -/
theorem cancellationRun_witness :
    (runGenerate [⟨0, "city-hall", "市役所/役所"⟩, ⟨4, "hospital", "病院"⟩] 3
        (fun t => Nat.ble 4 t)).terminal = Terminal.cancelled ∧
    (runGenerate [⟨0, "city-hall", "市役所/役所"⟩, ⟨4, "hospital", "病院"⟩] 3
        (fun t => Nat.ble 4 t)).terminal ≠ Terminal.errored ∧
    (runGenerate [⟨0, "city-hall", "市役所/役所"⟩, ⟨4, "hospital", "病院"⟩] 3
        (fun t => Nat.ble 4 t)).downloaded = false ∧
    (runGenerate [⟨0, "city-hall", "市役所/役所"⟩, ⟨4, "hospital", "病院"⟩] 3
        (fun t => Nat.ble 4 t)).isGenerating = false ∧
    (runGenerate [⟨0, "city-hall", "市役所/役所"⟩, ⟨4, "hospital", "病院"⟩] 3
        (fun t => Nat.ble 4 t)).cancelRequested = false ∧
    (runGenerate [⟨0, "city-hall", "市役所/役所"⟩, ⟨4, "hospital", "病院"⟩] 3
        (fun t => Nat.ble 4 t)).totalGenerated ≤ 4 ∧
    (runGenerate [⟨0, "city-hall", "市役所/役所"⟩, ⟨4, "hospital", "病院"⟩] 3
        (fun t => Nat.ble 4 t)).totalGenerated <
      ([⟨0, "city-hall", "市役所/役所"⟩, ⟨4, "hospital", "病院"⟩] :
        List SymbolCategory).length * 3 := by
  exact cancellationRun _ 3 (fun t => Nat.ble 4 t)
    (fun i j hij hi => Nat.ble_eq.mpr (le_trans (Nat.ble_eq.mp hi) hij))
    4 (by decide) (by decide)

/-- Helper: with no cancellation the inner loop emits exactly the files
0001.png .. per.png in order (as fileNameAt of 0 .. per-1 shifted by the
starting iconIndex). -/
theorem innerFiles_nocancel_fst :
    ∀ (remaining iconIndex total : Nat),
      (innerFiles (fun _ => false) remaining iconIndex total).1 =
        (List.range remaining).map (fun j => fileNameAt (iconIndex + j)) := by
  intro remaining
  induction remaining with
  | zero =>
    intro iconIndex total
    simp [innerFiles]
  | succ r ih =>
    intro iconIndex total
    have hstep : (innerFiles (fun _ => false) (r + 1) iconIndex total).1 =
        fileNameAt iconIndex :: (innerFiles (fun _ => false) r (iconIndex + 1) (total + 1)).1 := by
      simp [innerFiles]
    rw [hstep, ih (iconIndex + 1) (total + 1), List.range_succ_eq_map, List.map_cons,
      List.map_map]
    refine congrArg₂ List.cons ?_ ?_
    · exact congrArg fileNameAt (by omega)
    · refine List.map_congr_left ?_
      intro j _
      simp only [Function.comp_apply]
      exact congrArg fileNameAt (by omega)

/-- Helper: with no cancellation the folder at position i of the outer
loop's output is named for the 1-based ordinal index + i + 1 and the
category's key, and holds the full list of per file names. -/
theorem outerLoop_nocancel_get (per : Nat) :
    ∀ (cats : List SymbolCategory) (index total i : Nat), i < cats.length →
      ((outerLoop (fun _ => false) per cats index total).1)[i]? =
        some ⟨folderNameAt (index + i) ((cats.getD i default).key),
          (List.range per).map (fun j => fileNameAt j)⟩ := by
  intro cats
  induction cats with
  | nil =>
    intro index total i hi
    simp at hi
  | cons c cs ih =>
    intro index total i hi
    have hstep : (outerLoop (fun _ => false) per (c :: cs) index total).1 =
        (⟨folderNameAt index c.key, (innerFiles (fun _ => false) per 0 total).1⟩ :
          Folder) ::
          (outerLoop (fun _ => false) per cs (index + 1)
            (innerFiles (fun _ => false) per 0 total).2).1 := by
      simp [outerLoop]
    rw [hstep]
    cases i with
    | zero =>
      rw [innerFiles_nocancel_fst]
      simp
    | succ i2 =>
      rw [List.getElem?_cons_succ, ih (index + 1) _ i2 (by simpa using hi)]
      have harith : index + 1 + i2 = index + (i2 + 1) := by omega
      rw [harith]
      rfl

/-- Helper: both terminal branches of runGenerate carry the folders the
loops built. -/
theorem runGenerate_folders (cats : List SymbolCategory) (per : Nat) (cancel : Nat → Bool) :
    (runGenerate cats per cancel).folders = (outerLoop cancel per cats 0 0).1 := by
  rw [runGenerate]
  split <;> rfl

/-- Claim C8: in an uncancelled run over the filtered selection, the folder
at 0-based position i is named with i + 1 zero-padded to two digits, an
underscore and the slugified key, and holds exactly the per files whose
j-th name is j + 1 zero-padded to four digits plus .png; concretely the
category processed 3rd with key hospital yields folder 03_hospital and the
7th icon yields file 0007.png. -/
theorem namingLaw (cats : List SymbolCategory) (per i j : Nat)
    (hi : i < cats.length) (hj : j < per) :
    ((runGenerate cats per (fun _ => false)).folders)[i]? =
      some ⟨folderNameAt i ((cats.getD i default).key),
        (List.range per).map (fun j2 => fileNameAt j2)⟩ ∧
    ((List.range per).map (fun j2 => fileNameAt j2))[j]? = some (fileNameAt j) ∧
    folderNameAt 2 ("hospital") = "03_hospital" ∧
    fileNameAt 6 = "0007.png" := by
  refine ⟨?_, ?_, ?_, ?_⟩
  · rw [runGenerate_folders]
    simpa using outerLoop_nocancel_get per cats 0 0 i hi
  · simp [List.getElem?_map, List.getElem?_range hj]
  · decide
  · decide

/-- Witness for C8: three selected categories with hospital third and
seven icons per category. -/
theorem namingLaw_witness :
    ((runGenerate [⟨0, "city-hall", "市役所/役所"⟩, ⟨1, "police-box", "交番"⟩,
        ⟨4, "hospital", "病院"⟩] 7 (fun _ => false)).folders)[2]? =
      some ⟨"03_hospital", (List.range 7).map (fun j2 => fileNameAt j2)⟩ ∧
    ((List.range 7).map (fun j2 => fileNameAt j2))[6]? = some ("0007.png") := by
  have h := namingLaw [⟨0, "city-hall", "市役所/役所"⟩, ⟨1, "police-box", "交番"⟩,
    ⟨4, "hospital", "病院"⟩] 7 2 6 (by decide) (by decide)
  constructor
  · have h1 := h.1
    have hkey : (([⟨0, "city-hall", "市役所/役所"⟩, ⟨1, "police-box", "交番"⟩,
        ⟨4, "hospital", "病院"⟩] : List SymbolCategory).getD 2 default).key = "hospital" := rfl
    rw [hkey, h.2.2.1] at h1
    exact h1
  · have h2 := h.2.1
    rw [h.2.2.2] at h2
    exact h2

end MapSymbolGen
